import Mathlib

/-!
# HabitBuddy service worker (`src/sw.js`)

A shallow embedding of the event handlers of the service worker and the
properties its specification states about them.

Every handler is glue around host capabilities (cache storage, network,
notifications, window clients, timers).  A handler is embedded as a pure
function from the event and the answers the host gives (the result of
`caches.match`, the list `clients.matchAll` resolves with, the clock) to the
ordered list of host calls it makes, an `Effect` trace.  Promise chains are
embedded in the order in which their callbacks run.

JavaScript values are embedded by `JsVal`.  An object is the list of its
property definitions in definition order, read with the last definition of a
key winning, which is how an object literal with spreads evaluates: the literal
`{ ...a, ...b }` is the definitions of `a` followed by those of `b`.  Numbers are
integers: the only arithmetic in the file is on millisecond time values, which
`Date.now()` and `getTime()` return as integers (or `NaN`, embedded as `none`).
Time values are at most 8.64e15 in absolute value, so the sign of a difference
of two of them, and its comparison with 86400000, is the same in double
precision as over the integers; non-integral numbers are not embedded.

A trace records the calls made to the host: that `setTimeout` was called with a
given delay, that `showNotification` was called with a given descriptor.  The
duration the host gives a timer is `timerDuration` of the delay passed.
-/

namespace HabitBuddy

/-! ## JavaScript values -/

/-- JavaScript values that can reach the handlers. `str` holds a well-formed
string; `surrogate u` is the one-unit string made of the lone surrogate code
unit `u`, which a well-formed string yields when it is spread unit by unit. -/
inductive JsVal where
  | undefined
  | null
  | bool (b : Bool)
  | num (n : Int)
  | str (s : String)
  | surrogate (unit : Nat)
  | arr (items : List JsVal)
  | obj (fields : List (String × JsVal))

/-- The result of `ToBoolean`: the value a condition, `||` or `&&` tests. -/
def truthy : JsVal → Bool
  | .undefined => false
  | .null => false
  | .bool b => b
  | .num n => n != 0
  | .str s => s != ""
  | .surrogate _ => true
  | .arr _ => true
  | .obj _ => true

/-- The JavaScript expression `a || b`. -/
def jsOr (a b : JsVal) : JsVal :=
  if truthy a then a else b

/-- Own property `k` among property definitions: the last definition wins. -/
def getOwn : List (String × JsVal) → String → Option JsVal
  | [], _ => none
  | (k', v) :: rest, k =>
    match getOwn rest k with
    | some w => some w
    | none => if k' = k then some v else none

/-- The property read `v.k` for the keys the handlers read (`title`, `url`,
`scheduledTime`, `id`, `body`, `options`, `type`, `data`), none of which is a
built-in property: a missing property, or any property of a primitive or of an
array, reads as `undefined`. -/
def getProp (v : JsVal) (k : String) : JsVal :=
  match v with
  | .obj fields => (getOwn fields k).getD .undefined
  | _ => .undefined

/-- Index-keyed properties `i, i+1, ...` of the items of an array or string. -/
def indexed : Nat → List JsVal → List (String × JsVal)
  | _, [] => []
  | i, v :: rest => (toString i, v) :: indexed (i + 1) rest

/-- The UTF-16 code units of a character, each as a one-unit string: the
character itself in the Basic Multilingual Plane, otherwise its high and low
surrogate. -/
def codeUnits (c : Char) : List JsVal :=
  if c.toNat < 0x10000 then [.str (String.singleton c)]
  else
    [.surrogate (0xD800 + (c.toNat - 0x10000) / 0x400),
     .surrogate (0xDC00 + (c.toNat - 0x10000) % 0x400)]

/-- The UTF-16 code units of a string, each as a one-unit string. -/
def stringUnits : List Char → List JsVal
  | [] => []
  | c :: rest => codeUnits c ++ stringUnits rest

/-- The own enumerable properties a spread `...v` copies.  `undefined`, `null`,
booleans and numbers have none; a string spreads its UTF-16 code units and an
array its items under their indices. -/
def ownEnumerableProps : JsVal → List (String × JsVal)
  | .obj fields => fields
  | .arr items => indexed 0 items
  | .str s => indexed 0 (stringUnits s.data)
  | .surrogate u => [("0", .surrogate u)]
  | _ => []

/-! ## Host objects and the effect trace -/

/-- A request, identified by its URL and method. -/
structure Request where
  url : String
  method : String
  deriving DecidableEq

/-- A response. -/
structure Response where
  status : Nat
  body : String
  deriving DecidableEq

/-- One named cache: request/response entries. -/
abbrev Cache := List (Request × Response)

/-- The cache storage `caches`: named caches in creation order. -/
abbrev CacheStorage := List (String × Cache)

/-- A window client returned by `clients.matchAll`: its URL and whether it has a
`focus` method (`'focus' in client`). -/
structure Client where
  id : Nat
  url : String
  hasFocus : Bool
  deriving DecidableEq

/-- A displayed notification: its tag and its `data`. -/
structure Notification where
  tag : String
  data : JsVal

/-- The callback handed to `setTimeout` by `scheduleNotification`. -/
inductive TimerTask where
  | showNotification (title : JsVal) (options : JsVal)

/-- The host calls a handler makes. `log` carries the fixed text of a
`console.log` call. -/
inductive Effect where
  | log (text : String)
  | cachesKeys
  | cachesDelete (cacheName : String)
  | cachesMatch (request : Request)
  | fetch (request : Request)
  | respondWith (response : Except String Response)
  | showNotification (title : JsVal) (options : JsVal)
  | getNotifications
  | notificationClose (notification : Notification)
  | clientsMatchAll
  | postMessage (client : Client) (message : JsVal)
  | focus (client : Client)
  | openWindow (url : JsVal)
  | setTimeout (task : TimerTask) (delay : Int)

/-! ## Cache lifecycle -/

/-- Line 4: `CACHE_NAME`. -/
def CACHE_NAME : String := "habitbuddy-v1"

/-- The method `caches.keys()`: the names of the stores. -/
def cachesKeys (caches : CacheStorage) : List String :=
  caches.map Prod.fst

/-- The method `caches.delete(name)`: the store of that name is removed. -/
def cachesDelete (caches : CacheStorage) (name : String) : CacheStorage :=
  caches.filter fun c => decide (c.1 ≠ name)

/-- Lines 35-40: the callback mapped over `cacheNames`. -/
def activateStep (acc : CacheStorage × List Effect) (cacheName : String) :
    CacheStorage × List Effect :=
  if cacheName ≠ CACHE_NAME then
    (cachesDelete acc.1 cacheName,
      acc.2 ++ [.log "Service Worker: Eliminando caché viejo:", .cachesDelete cacheName])
  else acc

/-- Lines 30-44: the `activate` listener.  Returns the cache storage once the
promise passed to `waitUntil` settles, and the trace. -/
def activate (caches : CacheStorage) : CacheStorage × List Effect :=
  (cachesKeys caches).foldl activateStep
    (caches, [.log "Service Worker: Activado", .cachesKeys])

/-- Lines 47-55: the `fetch` listener. `cachesMatch` is the host lookup
`caches.match` (it resolves with a response or with `undefined`, here `none`),
`fetch` the network (it resolves with a response or rejects). -/
def fetchHandler (cachesMatch : CacheStorage → Request → Option Response)
    (fetch : Request → Except String Response)
    (caches : CacheStorage) (request : Request) : List Effect :=
  match cachesMatch caches request with
  | some response => [.cachesMatch request, .respondWith (.ok response)]
  | none => [.cachesMatch request, .fetch request, .respondWith (fetch request)]

/-- The requests a trace fetches from the network, in order. -/
def networkFetches : List Effect → List Request
  | [] => []
  | .fetch r :: rest => r :: networkFetches rest
  | _ :: rest => networkFetches rest

/-- The answers a trace hands to `respondWith`, in order. -/
def responses : List Effect → List (Except String Response)
  | [] => []
  | .respondWith r :: rest => r :: responses rest
  | _ :: rest => responses rest

/-- The cache lookups of a trace, in order. -/
def cacheLookups : List Effect → List Request
  | [] => []
  | .cachesMatch r :: rest => r :: cacheLookups rest
  | _ :: rest => cacheLookups rest

/-! ## Push notifications -/

/-- Lines 61-83: the initial value of `notificationData` in the `push`
listener, the default descriptor. -/
def defaultNotificationData : List (String × JsVal) :=
  [("title", .str "🌱 HabitBuddy"),
   ("body", .str "Tienes un recordatorio pendiente"),
   ("icon", .str "/icon-192.png"),
   ("badge", .str "/badge-72.png"),
   ("tag", .str "habitbuddy-reminder"),
   ("data", .obj [("url", .str "/"), ("action", .str "open")]),
   ("actions", .arr [
      .obj [("action", .str "open"), ("title", .str "📱 Abrir App")],
      .obj [("action", .str "dismiss"), ("title", .str "❌ Descartar")]]),
   ("requireInteraction", .bool true),
   ("silent", .bool false)]

/-- The payload object `event.data` of a push event: `json` is what the call
`event.data.json()` does, return the decoded value or throw. -/
structure PushMessageData where
  json : Except String JsVal

/-- Lines 58-98: the `push` listener. `data` is `event.data`, `none` for a push
without payload (`event.data` is `null`). -/
def pushHandler (data : Option PushMessageData) : List Effect :=
  let decoded : List Effect × List (String × JsVal) :=
    match data with
    | none => ([], defaultNotificationData)
    | some d =>
      match d.json with
      | .ok pushData => ([], defaultNotificationData ++ ownEnumerableProps pushData)
      | .error _ =>
        ([.log "Service Worker: Error parseando push data:"], defaultNotificationData)
  [.log "Service Worker: Push recibido"] ++ decoded.1 ++
    [.showNotification (getProp (.obj decoded.2) "title") (.obj decoded.2)]

/-- The notifications a trace asks the host to show: title argument and
options argument of each `showNotification` call, in order. -/
def shownNotifications : List Effect → List (JsVal × JsVal)
  | [] => []
  | .showNotification title options :: rest => (title, options) :: shownNotifications rest
  | _ :: rest => shownNotifications rest

/-! ## Notification clicks -/

/-- Whether the characters `needle` start the characters `hay`. -/
def startsWithChars : List Char → List Char → Bool
  | _, [] => true
  | [], _ :: _ => false
  | h :: hs, n :: ns => h == n && startsWithChars hs ns

/-- Whether the characters `needle` occur contiguously in `hay`. -/
def includesChars : List Char → List Char → Bool
  | [], needle => startsWithChars [] needle
  | h :: hs, needle => startsWithChars (h :: hs) needle || includesChars hs needle

/-- The method `String.prototype.includes`: `hay.includes(needle)`. -/
def includes (hay needle : String) : Bool :=
  includesChars hay.data needle.data

/-- Line 119: the test the click handler applies to a client,
`client.url.includes(self.location.origin) && 'focus' in client`. -/
def windowAtOrigin (origin : String) (client : Client) : Bool :=
  includes client.url origin && client.hasFocus

/-- A `notificationclick` event: the chosen action (the empty string for a
click on the notification body) and the notification. -/
structure NotificationClickEvent where
  action : String
  notification : Notification

/-- Lines 118-128: the `for` loop over `clientList`.  `some` trace when a client
passed the test and the callback returned from inside the loop, `none` when the
loop ran to its end. -/
def clickLoop (origin : String) (action : String) (notificationData : JsVal) :
    List Client → Option (List Effect)
  | [] => none
  | client :: rest =>
    if windowAtOrigin origin client then
      some [.postMessage client (.obj [
              ("type", .str "NOTIFICATION_CLICK"),
              ("action", .str action),
              ("data", notificationData)]),
            .focus client]
    else clickLoop origin action notificationData rest

/-- Lines 101-137: the `notificationclick` listener. `origin` is
`self.location.origin`, `openWindowAvailable` the truthiness of
`clients.openWindow`, `clientList` what `clients.matchAll` resolves with. -/
def notificationclick (origin : String) (openWindowAvailable : Bool)
    (event : NotificationClickEvent) (clientList : List Client) : List Effect :=
  let action := event.action
  let notificationData := jsOr event.notification.data (.obj [])
  [.log "Service Worker: Notificación clickeada", .notificationClose event.notification] ++
    if action = "dismiss" then []
    else
      .clientsMatchAll ::
        match clickLoop origin action notificationData clientList with
        | some trace => trace
        | none =>
          if openWindowAvailable then
            [.openWindow (jsOr (getProp notificationData "url") (.str "/"))]
          else []

/-- The messages a trace posts: receiving client and message, in order. -/
def posted : List Effect → List (Client × JsVal)
  | [] => []
  | .postMessage client message :: rest => (client, message) :: posted rest
  | _ :: rest => posted rest

/-- The clients a trace focuses, in order. -/
def focused : List Effect → List Client
  | [] => []
  | .focus client :: rest => client :: focused rest
  | _ :: rest => focused rest

/-- The URLs a trace opens a window at, in order. -/
def opened : List Effect → List JsVal
  | [] => []
  | .openWindow url :: rest => url :: opened rest
  | _ :: rest => opened rest

/-- The notifications a trace closes, in order. -/
def closed : List Effect → List Notification
  | [] => []
  | .notificationClose n :: rest => n :: closed rest
  | _ :: rest => closed rest

/-- How many times a trace enumerates the window clients. -/
def enumerations : List Effect → Nat
  | [] => 0
  | .clientsMatchAll :: rest => enumerations rest + 1
  | _ :: rest => enumerations rest

/-! ## Scheduling and cleanup -/

/-- The abstract operation `TimeClip`: a time value beyond 8.64e15 ms from the
epoch is `NaN`. -/
def timeClip (n : Int) : Option Int :=
  if n.natAbs ≤ 8640000000000000 then some n else none

/-- The expression `new Date(v).getTime()`, `none` for `NaN`.  A number is
clipped; `undefined` converts to `NaN`, `null` to 0 and a boolean to 0 or 1;
strings and objects go through the host date parser `dateParse`. -/
def dateGetTime (dateParse : JsVal → Option Int) : JsVal → Option Int
  | .undefined => none
  | .null => some 0
  | .bool b => some (if b then 1 else 0)
  | .num n => timeClip n
  | v => dateParse v

/-- Lines 191-200: the properties of the options literal of the scheduled
notification that precede the spread. -/
def scheduledDefaults (id body scheduledTime : JsVal) : List (String × JsVal) :=
  [("body", body),
   ("icon", .str "/icon-192.png"),
   ("badge", .str "/badge-72.png"),
   ("tag", id),
   ("data", .obj [("id", id), ("scheduledTime", scheduledTime)]),
   ("actions", .arr [
      .obj [("action", .str "open"), ("title", .str "📱 Abrir App")],
      .obj [("action", .str "dismiss"), ("title", .str "❌ Descartar")]]),
   ("requireInteraction", .bool true)]

/-- Lines 190-202: the options literal of the scheduled notification, the
defaults followed by the spread `...options`. -/
def scheduledOptions (id body scheduledTime options : JsVal) : List (String × JsVal) :=
  scheduledDefaults id body scheduledTime ++ ownEnumerableProps options

/-- Lines 181-207: `scheduleNotification`. `now` is `Date.now()`.  Destructuring
`undefined` or `null` throws; the default `options = {}` applies when the
property reads as `undefined`.  A `NaN` delay is not `> 0`. -/
def scheduleNotification (dateParse : JsVal → Option Int) (now : Int) (data : JsVal) :
    Except String (List Effect) :=
  match data with
  | .undefined => .error "TypeError"
  | .null => .error "TypeError"
  | _ =>
    let id := getProp data "id"
    let title := getProp data "title"
    let body := getProp data "body"
    let scheduledTime := getProp data "scheduledTime"
    let options :=
      match getProp data "options" with
      | .undefined => .obj []
      | v => v
    match dateGetTime dateParse scheduledTime with
    | none => .ok []
    | some scheduledTimestamp =>
      let delay := scheduledTimestamp - now
      if delay > 0 then
        .ok [.setTimeout
              (.showNotification title (.obj (scheduledOptions id body scheduledTime options)))
              delay,
             .log "Service Worker: Notificación programada para"]
      else .ok []

/-- Lines 163-178: the `message` listener. `eventData` is `event.data`. -/
def messageHandler (dateParse : JsVal → Option Int) (now : Int) (eventData : JsVal) :
    Except String (List Effect) :=
  match eventData with
  | .undefined => .error "TypeError"
  | .null => .error "TypeError"
  | _ =>
    let type := getProp eventData "type"
    let data := getProp eventData "data"
    let start : List Effect := [.log "Service Worker: Mensaje recibido:"]
    match type with
    | .str t =>
      if t = "SCHEDULE_NOTIFICATION" then
        (scheduleNotification dateParse now data).map fun trace => start ++ trace
      else if t = "CANCEL_NOTIFICATION" then .ok start
      else .ok (start ++ [.log "Service Worker: Tipo de mensaje no reconocido:"])
    | _ => .ok (start ++ [.log "Service Worker: Tipo de mensaje no reconocido:"])

/-- The conversion of an integral number to the Web IDL type `long`, the type
of the `timeout` argument of `setTimeout`: reduction modulo 2^32 into the
signed 32-bit range. -/
def toLong (n : Int) : Int :=
  if n % 4294967296 ≥ 2147483648 then n % 4294967296 - 4294967296 else n % 4294967296

/-- The duration the host gives the timer armed by `setTimeout(handler, delay)`:
the delay converted to `long`, and 0 when that is negative (HTML standard,
timer initialisation steps). -/
def timerDuration (delay : Int) : Int :=
  if toLong delay < 0 then 0 else toLong delay

/-- The durations of the timers a trace arms, in order. -/
def timerDurations : List Effect → List Int
  | [] => []
  | .setTimeout _ delay :: rest => timerDuration delay :: timerDurations rest
  | _ :: rest => timerDurations rest

/-- The timers a trace arms: `setTimeout` argument and callback, in order. -/
def timers : List Effect → List (Int × TimerTask)
  | [] => []
  | .setTimeout task delay :: rest => (delay, task) :: timers rest
  | _ :: rest => timers rest

/-- The notifications a trace renders when all its timers have expired: what it
shows directly and what its timer callbacks show. -/
def rendered : List Effect → List (JsVal × JsVal)
  | [] => []
  | .showNotification title options :: rest => (title, options) :: rendered rest
  | .setTimeout (.showNotification title options) _ :: rest => (title, options) :: rendered rest
  | _ :: rest => rendered rest

/-- Line 219: the condition of the `if` in `cleanOldNotifications`,
`scheduledTime && (now - new Date(scheduledTime).getTime()) > 24 * 60 * 60 * 1000`. -/
def isOld (dateParse : JsVal → Option Int) (now : Int) (notification : Notification) : Bool :=
  let data := jsOr notification.data (.obj [])
  let scheduledTime := getProp data "scheduledTime"
  truthy scheduledTime &&
    match dateGetTime dateParse scheduledTime with
    | some t => decide (now - t > 24 * 60 * 60 * 1000)
    | none => false

/-- Lines 214-222: the `forEach` over the notifications. -/
def closeOld (dateParse : JsVal → Option Int) (now : Int) : List Notification → List Effect
  | [] => []
  | notification :: rest =>
    (if isOld dateParse now notification then [.notificationClose notification] else []) ++
      closeOld dateParse now rest

/-- Lines 210-224: `cleanOldNotifications`. `notifications` is what
`getNotifications()` resolves with, `now` is `Date.now()`. -/
def cleanOldNotifications (dateParse : JsVal → Option Int) (now : Int)
    (notifications : List Notification) : List Effect :=
  .getNotifications :: closeOld dateParse now notifications

/-! ## Theorems: cache lifecycle -/

/-- Claim C1: for every host lookup, network, cache storage and request, the
fetch handler looks the request up once; on a hit it responds with the cached
response and makes no network call, on a miss it makes exactly one network
fetch of the same request and responds with its result as is. -/
theorem fetch_cache_first (cachesMatch : CacheStorage → Request → Option Response)
    (fetch : Request → Except String Response) (caches : CacheStorage) (request : Request) :
    cacheLookups (fetchHandler cachesMatch fetch caches request) = [request] ∧
    (networkFetches (fetchHandler cachesMatch fetch caches request),
      responses (fetchHandler cachesMatch fetch caches request)) =
      match cachesMatch caches request with
      | some response => ([], [.ok response])
      | none => ([request], [fetch request]) := by
  unfold fetchHandler
  cases cachesMatch caches request <;>
    simp [cacheLookups, networkFetches, responses]

theorem activateStep_fold (names : List String) (acc : CacheStorage × List Effect) :
    (names.foldl activateStep acc).1 =
      acc.1.filter fun c => decide (c.1 = CACHE_NAME ∨ c.1 ∉ names) := by
  induction names generalizing acc with
  | nil => simp
  | cons n rest ih =>
    rw [List.foldl_cons, ih]
    unfold activateStep
    split
    · rename_i hn
      simp only [cachesDelete, List.filter_filter]
      apply List.filter_congr
      intro c _
      by_cases h1 : c.1 = CACHE_NAME
      · have : CACHE_NAME ≠ n := fun h => hn h.symm
        simp [h1, this]
      · by_cases h2 : c.1 = n
        · subst h2
          simp [h1]
        · simp [h1, h2, List.mem_cons]
    · rename_i hn
      have hn' : n = CACHE_NAME := not_not.mp hn
      apply List.filter_congr
      intro c _
      by_cases h1 : c.1 = CACHE_NAME
      · simp [h1]
      · have : c.1 ≠ n := fun h => h1 (h.trans hn')
        simp [h1, this, List.mem_cons]

/-- Claim C2 (amended): after activation the stores are exactly the stores that
were named `CACHE_NAME` before it; every store of another name is deleted, and
the current store is present afterwards if and only if it existed before. -/
theorem activate_keeps_only_current (caches : CacheStorage) :
    (activate caches).1 = caches.filter (fun c => decide (c.1 = CACHE_NAME)) ∧
    ∀ name, name ∈ cachesKeys (activate caches).1 ↔
      name = CACHE_NAME ∧ name ∈ cachesKeys caches := by
  have h : (activate caches).1 = caches.filter (fun c => decide (c.1 = CACHE_NAME)) := by
    unfold activate
    rw [activateStep_fold]
    apply List.filter_congr
    intro c hc
    have : c.1 ∈ cachesKeys caches := List.mem_map_of_mem Prod.fst hc
    simp [this]
  refine ⟨h, fun name => ?_⟩
  rw [h]
  simp only [cachesKeys, List.mem_map, List.mem_filter, decide_eq_true_eq]
  constructor
  · rintro ⟨c, ⟨hc, hn⟩, rfl⟩
    exact ⟨hn, c, hc, rfl⟩
  · rintro ⟨hn, c, hc, rfl⟩
    exact ⟨c, ⟨hc, hn⟩, rfl⟩

/-- Claim C2 (as stated) fails: with one stale store and no current store,
activation leaves no store at all, so the set of names is not `{CACHE_NAME}`. -/
theorem activate_without_current_store :
    cachesKeys (activate [("habitbuddy-v0", [])]).1 = [] ∧
    ¬ (∀ name, name ∈ cachesKeys (activate [("habitbuddy-v0", [])]).1 ↔
        name = CACHE_NAME) := by
  have h : cachesKeys (activate [("habitbuddy-v0", [])]).1 = [] := by
    simp [activate, cachesKeys, activateStep, cachesDelete, CACHE_NAME]
  refine ⟨h, fun hall => ?_⟩
  have := (hall CACHE_NAME).mpr rfl
  rw [h] at this
  exact List.not_mem_nil _ this

/-! ## Theorems: push notifications -/

theorem getOwn_append (a b : List (String × JsVal)) (k : String) :
    getOwn (a ++ b) k =
      match getOwn b k with
      | some v => some v
      | none => getOwn a k := by
  induction a with
  | nil => cases h : getOwn b k <;> simp [getOwn, h]
  | cons p rest ih =>
    obtain ⟨k', v⟩ := p
    show getOwn ((k', v) :: (rest ++ b)) k = _
    simp only [getOwn]
    rw [ih]
    cases getOwn b k <;> simp

theorem getProp_append (a b : List (String × JsVal)) (k : String) :
    getProp (.obj (a ++ b)) k =
      match getOwn b k with
      | some v => v
      | none => getProp (.obj a) k := by
  simp only [getProp, getOwn_append]
  cases getOwn b k <;> simp

/-- Claim C3: for every payload that decodes to an object, the push handler
shows one notification whose descriptor is the default descriptor with the
payload merged over it: a field the payload has takes the payload value, every
other field reads as in the defaults.  For the payload with the single field
title = x the title argument is x, the descriptor has title x and every other
field equals its default; the defaults are the documented ones. -/
theorem push_payload_merged_over_defaults (fields : List (String × JsVal)) (x : String) :
    (shownNotifications (pushHandler (some ⟨.ok (.obj fields)⟩)) =
        [(getProp (.obj (defaultNotificationData ++ fields)) "title",
          .obj (defaultNotificationData ++ fields))] ∧
      ∀ k, getProp (.obj (defaultNotificationData ++ fields)) k =
        match getOwn fields k with
        | some v => v
        | none => getProp (.obj defaultNotificationData) k) ∧
    (shownNotifications (pushHandler (some ⟨.ok (.obj [("title", .str x)])⟩)) =
        [(.str x, .obj (defaultNotificationData ++ [("title", .str x)]))] ∧
      ∀ k, getProp (.obj (defaultNotificationData ++ [("title", .str x)])) k =
        if k = "title" then .str x else getProp (.obj defaultNotificationData) k) ∧
    (getProp (.obj defaultNotificationData) "title" = .str "🌱 HabitBuddy" ∧
      getProp (.obj defaultNotificationData) "body" = .str "Tienes un recordatorio pendiente" ∧
      getProp (.obj defaultNotificationData) "icon" = .str "/icon-192.png" ∧
      getProp (.obj defaultNotificationData) "badge" = .str "/badge-72.png" ∧
      getProp (.obj defaultNotificationData) "tag" = .str "habitbuddy-reminder" ∧
      getProp (.obj defaultNotificationData) "data" =
        .obj [("url", .str "/"), ("action", .str "open")] ∧
      getProp (.obj defaultNotificationData) "actions" = .arr [
        .obj [("action", .str "open"), ("title", .str "📱 Abrir App")],
        .obj [("action", .str "dismiss"), ("title", .str "❌ Descartar")]] ∧
      getProp (.obj defaultNotificationData) "requireInteraction" = .bool true ∧
      getProp (.obj defaultNotificationData) "silent" = .bool false) := by
  refine ⟨⟨?_, fun k => getProp_append _ _ k⟩, ⟨?_, fun k => ?_⟩, ?_⟩
  · simp [pushHandler, shownNotifications, ownEnumerableProps]
  · simp [pushHandler, shownNotifications, ownEnumerableProps, getProp_append, getOwn]
  · rw [getProp_append]
    by_cases h : k = "title"
    · subst h
      simp [getOwn]
    · have h' : ¬ "title" = k := fun e => h e.symm
      simp [getOwn, h, h']
  · simp [getProp, getOwn, defaultNotificationData]

/-- Claim C4: when decoding the payload throws, and when the push carries no
payload, the push handler shows exactly one notification, with the default
title and the default descriptor, field for field. -/
theorem push_decode_failure_uses_defaults (err : String) :
    shownNotifications (pushHandler (some ⟨.error err⟩)) =
      [(.str "🌱 HabitBuddy", .obj defaultNotificationData)] ∧
    shownNotifications (pushHandler none) =
      [(.str "🌱 HabitBuddy", .obj defaultNotificationData)] ∧
    defaultNotificationData =
      [("title", .str "🌱 HabitBuddy"),
       ("body", .str "Tienes un recordatorio pendiente"),
       ("icon", .str "/icon-192.png"),
       ("badge", .str "/badge-72.png"),
       ("tag", .str "habitbuddy-reminder"),
       ("data", .obj [("url", .str "/"), ("action", .str "open")]),
       ("actions", .arr [
          .obj [("action", .str "open"), ("title", .str "📱 Abrir App")],
          .obj [("action", .str "dismiss"), ("title", .str "❌ Descartar")]]),
       ("requireInteraction", .bool true),
       ("silent", .bool false)] := by
  refine ⟨?_, ?_, rfl⟩ <;>
    simp [pushHandler, shownNotifications, getProp, getOwn, defaultNotificationData]

/-! ## Theorems: notification clicks -/

theorem clickLoop_find (origin action : String) (notificationData : JsVal)
    (clientList : List Client) :
    clickLoop origin action notificationData clientList =
      (clientList.find? (windowAtOrigin origin)).map fun client =>
        [.postMessage client (.obj [
            ("type", .str "NOTIFICATION_CLICK"),
            ("action", .str action),
            ("data", notificationData)]),
          .focus client] := by
  induction clientList with
  | nil => rfl
  | cons client rest ih =>
    by_cases h : windowAtOrigin origin client = true
    · simp [clickLoop, List.find?_cons, h]
    · simp [clickLoop, List.find?_cons, h, ih]

theorem startsWithChars_iff (hay needle : List Char) :
    startsWithChars hay needle = true ↔ ∃ post, hay = needle ++ post := by
  induction needle generalizing hay with
  | nil => cases hay <;> simp [startsWithChars]
  | cons n ns ih =>
    cases hay with
    | nil => simp [startsWithChars]
    | cons h hs =>
      simp only [startsWithChars, Bool.and_eq_true, beq_iff_eq, ih, List.cons_append,
        List.cons.injEq]
      constructor
      · rintro ⟨rfl, post, rfl⟩
        exact ⟨post, rfl, rfl⟩
      · rintro ⟨post, rfl, rfl⟩
        exact ⟨rfl, post, rfl⟩

theorem includesChars_iff (hay needle : List Char) :
    includesChars hay needle = true ↔ ∃ pre post, hay = pre ++ needle ++ post := by
  induction hay with
  | nil =>
    simp only [includesChars, startsWithChars_iff]
    constructor
    · rintro ⟨post, h⟩
      exact ⟨[], post, by simpa using h⟩
    · rintro ⟨pre, post, h⟩
      have h1 : pre ++ needle = [] := (List.append_eq_nil.mp h.symm).1
      have h2 : needle = [] := (List.append_eq_nil.mp h1).2
      exact ⟨[], by simp [h2]⟩
  | cons h hs ih =>
    simp only [includesChars, Bool.or_eq_true, startsWithChars_iff, ih]
    constructor
    · rintro (⟨post, e⟩ | ⟨pre, post, e⟩)
      · exact ⟨[], post, by simpa using e⟩
      · exact ⟨h :: pre, post, by simp [e]⟩
    · rintro ⟨pre, post, e⟩
      cases pre with
      | nil => exact Or.inl ⟨post, by simpa using e⟩
      | cons p ps =>
        simp only [List.cons_append, List.cons.injEq] at e
        exact Or.inr ⟨ps, post, e.2⟩

theorem windowAtOrigin_iff (origin : String) (client : Client) :
    windowAtOrigin origin client = true ↔
      (∃ pre post, client.url.data = pre ++ origin.data ++ post) ∧ client.hasFocus = true := by
  simp only [windowAtOrigin, includes, Bool.and_eq_true, includesChars_iff]

theorem find_split {α : Type} (p : α → Bool) (l : List α) (x : α)
    (h : l.find? p = some x) :
    p x = true ∧ ∃ before after, l = before ++ x :: after ∧ ∀ a ∈ before, p a = false := by
  induction l with
  | nil => simp at h
  | cons y ys ih =>
    by_cases hy : p y = true
    · simp only [List.find?_cons, hy, Option.some.injEq] at h
      subst h
      exact ⟨hy, [], ys, rfl, by simp⟩
    · have hy' : p y = false := by simpa using hy
      simp only [List.find?_cons, hy'] at h
      obtain ⟨hx, before, after, hl, hb⟩ := ih h
      refine ⟨hx, y :: before, after, by simp [hl], ?_⟩
      intro a ha
      rcases List.mem_cons.mp ha with rfl | ha
      · exact hy'
      · exact hb a ha

theorem getProp_jsOr_empty (data : JsVal) (k : String) :
    getProp (jsOr data (.obj [])) k = getProp data k := by
  unfold jsOr
  by_cases h : truthy data = true
  · rw [if_pos h]
  · rw [if_neg h]
    cases data <;> simp_all [truthy, getProp, getOwn]

/-- Claim C5: for a click whose action is not dismiss, when the window list
holds a focusable window whose URL begins with the origin of the worker,
exactly one message is posted.  Its receiver is the first client of the list,
in list order, whose URL contains the origin and that can be focused (every
client before it fails that); the message has type NOTIFICATION_CLICK, the
clicked action, and as data the data of the notification, or the empty object
when the notification has none (undefined, null, false, 0 or the empty
string).  That client is the only one focused and no window is opened. -/
theorem click_posts_to_first_window (origin : String) (openWindowAvailable : Bool)
    (event : NotificationClickEvent) (clientList : List Client)
    (hAction : event.action ≠ "dismiss")
    (hWindow : ∃ client ∈ clientList,
      (∃ path, client.url = origin ++ path) ∧ client.hasFocus = true) :
    ∃ before first after,
      clientList = before ++ first :: after ∧
      ((∃ pre post, first.url.data = pre ++ origin.data ++ post) ∧ first.hasFocus = true) ∧
      (∀ client ∈ before,
        ¬ ((∃ pre post, client.url.data = pre ++ origin.data ++ post) ∧
            client.hasFocus = true)) ∧
      clientList.find? (windowAtOrigin origin) = some first ∧
      posted (notificationclick origin openWindowAvailable event clientList) =
        [(first, .obj [
            ("type", .str "NOTIFICATION_CLICK"),
            ("action", .str event.action),
            ("data",
              match event.notification.data with
              | .undefined => .obj []
              | .null => .obj []
              | .bool b => if b = true then .bool true else .obj []
              | .num n => if n = 0 then .obj [] else .num n
              | .str s => if s = "" then .obj [] else .str s
              | data => data)])] ∧
      focused (notificationclick origin openWindowAvailable event clientList) = [first] ∧
      opened (notificationclick origin openWindowAvailable event clientList) = [] := by
  obtain ⟨client, hMem, ⟨path, hUrl⟩, hFocus⟩ := hWindow
  have hTest : windowAtOrigin origin client = true := by
    rw [windowAtOrigin_iff]
    refine ⟨⟨[], path.data, ?_⟩, hFocus⟩
    rw [hUrl, String.data_append, List.nil_append]
  cases hFind : clientList.find? (windowAtOrigin origin) with
  | none =>
    have := List.find?_eq_none.mp hFind client hMem
    exact absurd hTest this
  | some first =>
    obtain ⟨hFirst, before, after, hSplit, hBefore⟩ := find_split _ _ _ hFind
    refine ⟨before, first, after, hSplit, (windowAtOrigin_iff origin first).mp hFirst, ?_,
      rfl, ?_, ?_, ?_⟩
    · intro c hc hContra
      have h1 := (windowAtOrigin_iff origin c).mpr hContra
      rw [hBefore c hc] at h1
      exact Bool.noConfusion h1
    · obtain ⟨action, tag, data⟩ := event
      simp only [notificationclick, clickLoop_find, hFind, posted]
      have hAction' : ¬ action = "dismiss" := hAction
      simp only [hAction', if_false, List.cons_append, List.nil_append, posted, Option.map_some']
      cases data with
      | bool b => cases b <;> simp [jsOr, truthy]
      | num n => by_cases hn : n = 0 <;> simp [jsOr, truthy, hn]
      | str s => by_cases hs : s = "" <;> simp [jsOr, truthy, hs]
      | _ => simp [jsOr, truthy]
    · simp [notificationclick, hAction, clickLoop_find, hFind, focused]
    · simp [notificationclick, hAction, clickLoop_find, hFind, opened]

/-- Witness for C5: a click on the action open of a notification without data;
the window list holds a blank window, then two windows of the application.
The message goes to the first window of the application, with the empty object
as data; that window is focused and nothing is opened. -/
theorem click_posts_to_first_window_witness :
    posted (notificationclick "https://habit.example" true
        ⟨"open", ⟨"habitbuddy-reminder", .null⟩⟩
        [⟨1, "about:blank", true⟩, ⟨2, "https://habit.example/app", true⟩,
          ⟨3, "https://habit.example/", true⟩]) =
      [(⟨2, "https://habit.example/app", true⟩, .obj [
          ("type", .str "NOTIFICATION_CLICK"),
          ("action", .str "open"),
          ("data", .obj [])])] ∧
    focused (notificationclick "https://habit.example" true
        ⟨"open", ⟨"habitbuddy-reminder", .null⟩⟩
        [⟨1, "about:blank", true⟩, ⟨2, "https://habit.example/app", true⟩,
          ⟨3, "https://habit.example/", true⟩]) = [⟨2, "https://habit.example/app", true⟩] ∧
    opened (notificationclick "https://habit.example" true
        ⟨"open", ⟨"habitbuddy-reminder", .null⟩⟩
        [⟨1, "about:blank", true⟩, ⟨2, "https://habit.example/app", true⟩,
          ⟨3, "https://habit.example/", true⟩]) = [] := by
  obtain ⟨_, first, _, _, _, _, hFind, hPosted, hFocused, hOpened⟩ :=
    click_posts_to_first_window "https://habit.example" true
      ⟨"open", ⟨"habitbuddy-reminder", .null⟩⟩
      [⟨1, "about:blank", true⟩, ⟨2, "https://habit.example/app", true⟩,
        ⟨3, "https://habit.example/", true⟩]
      (by decide)
      ⟨⟨2, "https://habit.example/app", true⟩, by simp, ⟨"/app", by decide⟩, rfl⟩
  have hSecond :
      [(⟨1, "about:blank", true⟩ : Client), ⟨2, "https://habit.example/app", true⟩,
        ⟨3, "https://habit.example/", true⟩].find? (windowAtOrigin "https://habit.example") =
        some ⟨2, "https://habit.example/app", true⟩ := by decide
  have hEq : first = ⟨2, "https://habit.example/app", true⟩ :=
    Option.some.inj (hFind.symm.trans hSecond)
  subst hEq
  exact ⟨hPosted, hFocused, hOpened⟩

/-- Claim C6: for a click with action dismiss, whatever the window list, the
handler closes the notification and does nothing else: it does not enumerate
the windows, posts no message, focuses no window and opens none. -/
theorem click_dismiss_only_closes (origin : String) (openWindowAvailable : Bool)
    (notification : Notification) (clientList : List Client) :
    notificationclick origin openWindowAvailable ⟨"dismiss", notification⟩ clientList =
      [.log "Service Worker: Notificación clickeada", .notificationClose notification] ∧
    closed (notificationclick origin openWindowAvailable ⟨"dismiss", notification⟩ clientList) =
      [notification] ∧
    enumerations
      (notificationclick origin openWindowAvailable ⟨"dismiss", notification⟩ clientList) = 0 ∧
    posted (notificationclick origin openWindowAvailable ⟨"dismiss", notification⟩ clientList) =
      [] ∧
    focused (notificationclick origin openWindowAvailable ⟨"dismiss", notification⟩ clientList) =
      [] ∧
    opened (notificationclick origin openWindowAvailable ⟨"dismiss", notification⟩ clientList) =
      [] := by
  simp [notificationclick, closed, enumerations, posted, focused, opened]

/-- Claim C7 (amended): for a click whose action is not dismiss, when no client
of the window list has a URL containing the origin and can be focused, no
message is posted and no window is focused; on a host that offers openWindow
exactly one window is opened, at the url of the notification data, or at "/"
when the notification has no data or the data has no url (undefined, null,
false, 0 or the empty string); on a host without openWindow none is opened. -/
theorem click_opens_window_when_none (origin : String) (openWindowAvailable : Bool)
    (event : NotificationClickEvent) (clientList : List Client)
    (hAction : event.action ≠ "dismiss")
    (hNone : ∀ client ∈ clientList,
      (¬ ∃ pre post, client.url.data = pre ++ origin.data ++ post) ∨
        client.hasFocus = false) :
    posted (notificationclick origin openWindowAvailable event clientList) = [] ∧
    focused (notificationclick origin openWindowAvailable event clientList) = [] ∧
    opened (notificationclick origin openWindowAvailable event clientList) =
      if openWindowAvailable = true then
        [match getProp event.notification.data "url" with
          | .undefined => .str "/"
          | .null => .str "/"
          | .bool b => if b = true then .bool true else .str "/"
          | .num n => if n = 0 then .str "/" else .num n
          | .str s => if s = "" then .str "/" else .str s
          | url => url]
      else [] := by
  have hFind : clientList.find? (windowAtOrigin origin) = none := by
    rw [List.find?_eq_none]
    intro c hc hTest
    have h := (windowAtOrigin_iff origin c).mp hTest
    rcases hNone c hc with h1 | h1
    · exact h1 h.1
    · rw [h1] at h
      exact Bool.noConfusion h.2
  refine ⟨?_, ?_, ?_⟩
  · cases openWindowAvailable <;>
      simp [notificationclick, hAction, clickLoop_find, hFind, posted]
  · cases openWindowAvailable <;>
      simp [notificationclick, hAction, clickLoop_find, hFind, focused]
  · cases openWindowAvailable
    · simp [notificationclick, hAction, clickLoop_find, hFind, opened]
    · simp only [notificationclick, hAction, clickLoop_find, hFind, if_false, if_true,
        Option.map_none', List.cons_append, List.nil_append, opened, getProp_jsOr_empty]
      cases getProp event.notification.data "url" with
      | bool b => cases b <;> simp [jsOr, truthy]
      | num n => by_cases hn : n = 0 <;> simp [jsOr, truthy, hn]
      | str s => by_cases hs : s = "" <;> simp [jsOr, truthy, hs]
      | _ => simp [jsOr, truthy]

/-- Witness for C7: a click on the notification body while the only open window
is a blank one.  With data naming the url "/today" one window is opened at
"/today"; with no data one window is opened at "/". -/
theorem click_opens_window_when_none_witness :
    (posted (notificationclick "https://habit.example" true
        ⟨"", ⟨"habitbuddy-reminder", .obj [("url", .str "/today")]⟩⟩
        [⟨1, "about:blank", true⟩]) = [] ∧
      focused (notificationclick "https://habit.example" true
        ⟨"", ⟨"habitbuddy-reminder", .obj [("url", .str "/today")]⟩⟩
        [⟨1, "about:blank", true⟩]) = [] ∧
      opened (notificationclick "https://habit.example" true
        ⟨"", ⟨"habitbuddy-reminder", .obj [("url", .str "/today")]⟩⟩
        [⟨1, "about:blank", true⟩]) = [.str "/today"]) ∧
    opened (notificationclick "https://habit.example" true
        ⟨"", ⟨"habitbuddy-reminder", .null⟩⟩
        [⟨1, "about:blank", true⟩]) = [.str "/"] := by
  have hBlank : ∀ client ∈ [(⟨1, "about:blank", true⟩ : Client)],
      (¬ ∃ pre post, client.url.data = pre ++ "https://habit.example".data ++ post) ∨
        client.hasFocus = false := by
    intro client h
    rw [List.mem_singleton] at h
    subst h
    refine Or.inl fun hIn => ?_
    have hTest : includesChars "about:blank".data "https://habit.example".data = true :=
      (includesChars_iff _ _).mpr hIn
    exact absurd hTest (by decide)
  have h1 := click_opens_window_when_none "https://habit.example" true
    ⟨"", ⟨"habitbuddy-reminder", .obj [("url", .str "/today")]⟩⟩
    [⟨1, "about:blank", true⟩] (by decide) hBlank
  have h2 := click_opens_window_when_none "https://habit.example" true
    ⟨"", ⟨"habitbuddy-reminder", .null⟩⟩
    [⟨1, "about:blank", true⟩] (by decide) hBlank
  refine ⟨⟨h1.1, h1.2.1, ?_⟩, ?_⟩
  · have h := h1.2.2
    simpa [getProp, getOwn] using h
  · have h := h2.2.2
    simpa [getProp] using h

/-- Claim C7 (as stated) fails: on a host without openWindow, a click on the
action open with no window of the application open posts nothing and opens no
window at all, because the handler tests `clients.openWindow` first. -/
theorem click_opens_nothing_without_openWindow :
    posted (notificationclick "https://habit.example" false
        ⟨"open", ⟨"habitbuddy-reminder", .obj [("url", .str "/today")]⟩⟩
        [⟨1, "about:blank", true⟩]) = [] ∧
    opened (notificationclick "https://habit.example" false
        ⟨"open", ⟨"habitbuddy-reminder", .obj [("url", .str "/today")]⟩⟩
        [⟨1, "about:blank", true⟩]) = [] ∧
    ¬ ∃ url, opened (notificationclick "https://habit.example" false
        ⟨"open", ⟨"habitbuddy-reminder", .obj [("url", .str "/today")]⟩⟩
        [⟨1, "about:blank", true⟩]) = [url] := by
  have hLoop : clickLoop "https://habit.example" "open"
      (jsOr (.obj [("url", .str "/today")]) (.obj [])) [⟨1, "about:blank", true⟩] = none := by
    have hTest : windowAtOrigin "https://habit.example" ⟨1, "about:blank", true⟩ = false := by
      decide
    simp [clickLoop, hTest]
  have hOpened : opened (notificationclick "https://habit.example" false
      ⟨"open", ⟨"habitbuddy-reminder", .obj [("url", .str "/today")]⟩⟩
      [⟨1, "about:blank", true⟩]) = [] := by
    simp [notificationclick, hLoop, opened]
  refine ⟨?_, hOpened, ?_⟩
  · simp [notificationclick, hLoop, posted]
  · rintro ⟨url, h⟩
    rw [hOpened] at h
    exact List.noConfusion h

/-! ## Theorems: scheduling and cleanup -/

/-- Claim C8 (amended): for a schedule request whose delay is positive, one
timer of that delay is armed; the notification it renders has the title of the
request and a descriptor that is the defaults (body of the request, icon,
badge, tag = id, data = id and scheduledTime, the actions open and dismiss,
requireInteraction = true) with the supplied options merged over them: every
field the options supply, tag and data included, takes the supplied value and
every other field keeps its default.  Omitted options supply nothing. -/
theorem scheduled_notification_descriptor (dateParse : JsVal → Option Int)
    (now scheduledTimestamp : Int) (fields : List (String × JsVal))
    (hTime : dateGetTime dateParse (getProp (.obj fields) "scheduledTime") =
      some scheduledTimestamp)
    (hDelay : scheduledTimestamp - now > 0) :
    ∃ trace descriptor,
      scheduleNotification dateParse now (.obj fields) = .ok trace ∧
      messageHandler dateParse now
          (.obj [("type", .str "SCHEDULE_NOTIFICATION"), ("data", .obj fields)]) =
        .ok (.log "Service Worker: Mensaje recibido:" :: trace) ∧
      timers trace =
        [(scheduledTimestamp - now,
          .showNotification (getProp (.obj fields) "title") descriptor)] ∧
      rendered trace = [(getProp (.obj fields) "title", descriptor)] ∧
      (∀ k, getProp descriptor k =
        match getOwn (ownEnumerableProps (getProp (.obj fields) "options")) k with
        | some v => v
        | none =>
          getProp (.obj (scheduledDefaults (getProp (.obj fields) "id")
            (getProp (.obj fields) "body") (getProp (.obj fields) "scheduledTime"))) k) ∧
      (getProp (.obj fields) "options" = .undefined →
        descriptor = .obj (scheduledDefaults (getProp (.obj fields) "id")
          (getProp (.obj fields) "body") (getProp (.obj fields) "scheduledTime"))) ∧
      ∀ id body scheduledTime,
        getProp (.obj (scheduledDefaults id body scheduledTime)) "body" = body ∧
        getProp (.obj (scheduledDefaults id body scheduledTime)) "icon" = .str "/icon-192.png" ∧
        getProp (.obj (scheduledDefaults id body scheduledTime)) "badge" =
          .str "/badge-72.png" ∧
        getProp (.obj (scheduledDefaults id body scheduledTime)) "tag" = id ∧
        getProp (.obj (scheduledDefaults id body scheduledTime)) "data" =
          .obj [("id", id), ("scheduledTime", scheduledTime)] ∧
        getProp (.obj (scheduledDefaults id body scheduledTime)) "actions" = .arr [
          .obj [("action", .str "open"), ("title", .str "📱 Abrir App")],
          .obj [("action", .str "dismiss"), ("title", .str "❌ Descartar")]] ∧
        getProp (.obj (scheduledDefaults id body scheduledTime)) "requireInteraction" =
          .bool true := by
  have hSpread : ∀ v : JsVal,
      ownEnumerableProps (match v with | .undefined => .obj [] | w => w) =
        ownEnumerableProps v := by
    intro v
    cases v <;> simp [ownEnumerableProps]
  have hSched : scheduleNotification dateParse now (.obj fields) =
      .ok [.setTimeout
            (.showNotification (getProp (.obj fields) "title")
              (.obj (scheduledDefaults (getProp (.obj fields) "id")
                  (getProp (.obj fields) "body") (getProp (.obj fields) "scheduledTime") ++
                ownEnumerableProps (getProp (.obj fields) "options"))))
            (scheduledTimestamp - now),
           .log "Service Worker: Notificación programada para"] := by
    simp only [scheduleNotification, hTime, scheduledOptions, hSpread]
    rw [if_pos hDelay]
  refine ⟨_, _, hSched, ?_, ?_, ?_, fun k => getProp_append _ _ k, ?_, ?_⟩
  · simp [messageHandler, getProp, getOwn, hSched, Except.map]
  · simp [timers]
  · simp [rendered]
  · intro h
    simp [h, ownEnumerableProps]
  · intro id body scheduledTime
    simp [getProp, getOwn, scheduledDefaults]

/-- Witness for C8: a reminder five seconds ahead, options omitted. -/
theorem scheduled_notification_descriptor_witness :
    ∃ trace descriptor,
      scheduleNotification (fun _ => none) 1000 (.obj [("id", .str "habit-1"),
          ("title", .str "Agua"), ("body", .str "Beber agua"),
          ("scheduledTime", .num 6000)]) = .ok trace ∧
      messageHandler (fun _ => none) 1000
          (.obj [("type", .str "SCHEDULE_NOTIFICATION"), ("data", .obj [("id", .str "habit-1"),
            ("title", .str "Agua"), ("body", .str "Beber agua"),
            ("scheduledTime", .num 6000)])]) =
        .ok (.log "Service Worker: Mensaje recibido:" :: trace) ∧
      timers trace = [((6000 : Int) - 1000, .showNotification (.str "Agua") descriptor)] ∧
      rendered trace = [(.str "Agua", descriptor)] ∧
      getProp descriptor "tag" = .str "habit-1" ∧
      getProp descriptor "data" =
        .obj [("id", .str "habit-1"), ("scheduledTime", .num 6000)] := by
  obtain ⟨trace, descriptor, h1, h2, h3, h4, h5, _, _⟩ :=
    scheduled_notification_descriptor (fun _ => none) 1000 6000
      [("id", .str "habit-1"), ("title", .str "Agua"), ("body", .str "Beber agua"),
        ("scheduledTime", .num 6000)]
      (by simp [dateGetTime, getProp, getOwn, timeClip]) (by decide)
  refine ⟨trace, descriptor, h1, h2, ?_, ?_, ?_, ?_⟩
  · simpa [getProp, getOwn] using h3
  · simpa [getProp, getOwn] using h4
  · rw [h5]
    simp [getProp, getOwn, ownEnumerableProps, scheduledDefaults]
  · rw [h5]
    simp [getProp, getOwn, ownEnumerableProps, scheduledDefaults]

/-- Claim C8 (as stated) fails: options that supply a tag and a data replace
the tag and the data of the request, so the rendered notification is neither
tagged with the id nor carries id and scheduledTime. -/
theorem scheduled_options_override_tag_and_data :
    scheduleNotification (fun _ => none) 1000 (.obj [("id", .str "habit-1"),
        ("title", .str "Agua"), ("body", .str "Beber agua"), ("scheduledTime", .num 6000),
        ("options", .obj [("tag", .str "other"), ("data", .obj [("url", .str "/x")])])]) =
      .ok [.setTimeout
            (.showNotification (.str "Agua") (.obj [
              ("body", .str "Beber agua"),
              ("icon", .str "/icon-192.png"),
              ("badge", .str "/badge-72.png"),
              ("tag", .str "habit-1"),
              ("data", .obj [("id", .str "habit-1"), ("scheduledTime", .num 6000)]),
              ("actions", .arr [
                .obj [("action", .str "open"), ("title", .str "📱 Abrir App")],
                .obj [("action", .str "dismiss"), ("title", .str "❌ Descartar")]]),
              ("requireInteraction", .bool true),
              ("tag", .str "other"),
              ("data", .obj [("url", .str "/x")])]))
            5000,
           .log "Service Worker: Notificación programada para"] ∧
    getProp (.obj [
        ("body", .str "Beber agua"),
        ("icon", .str "/icon-192.png"),
        ("badge", .str "/badge-72.png"),
        ("tag", .str "habit-1"),
        ("data", .obj [("id", .str "habit-1"), ("scheduledTime", .num 6000)]),
        ("actions", .arr [
          .obj [("action", .str "open"), ("title", .str "📱 Abrir App")],
          .obj [("action", .str "dismiss"), ("title", .str "❌ Descartar")]]),
        ("requireInteraction", .bool true),
        ("tag", .str "other"),
        ("data", .obj [("url", .str "/x")])]) "tag" ≠ .str "habit-1" ∧
    getProp (.obj [
        ("body", .str "Beber agua"),
        ("icon", .str "/icon-192.png"),
        ("badge", .str "/badge-72.png"),
        ("tag", .str "habit-1"),
        ("data", .obj [("id", .str "habit-1"), ("scheduledTime", .num 6000)]),
        ("actions", .arr [
          .obj [("action", .str "open"), ("title", .str "📱 Abrir App")],
          .obj [("action", .str "dismiss"), ("title", .str "❌ Descartar")]]),
        ("requireInteraction", .bool true),
        ("tag", .str "other"),
        ("data", .obj [("url", .str "/x")])]) "data" ≠
      .obj [("id", .str "habit-1"), ("scheduledTime", .num 6000)] := by
  refine ⟨?_, ?_, ?_⟩
  · simp [scheduleNotification, dateGetTime, timeClip, getProp, getOwn, scheduledOptions,
      scheduledDefaults, ownEnumerableProps]
  · simp [getProp, getOwn]
  · simp [getProp, getOwn]

theorem timerDuration_of_long (delay : Int) (hPos : 0 < delay) (hMax : delay ≤ 2147483647) :
    timerDuration delay = delay := by
  have hMod : delay % 4294967296 = delay := Int.emod_eq_of_lt (by omega) (by omega)
  unfold timerDuration toLong
  rw [hMod]
  split <;> split <;> omega

/-- Claim C9 (amended): for every schedule request and every clock reading, the
request arms a timer if and only if the delay (scheduled timestamp minus now)
is strictly positive, and then exactly one timer, by one call of setTimeout
with exactly the delay, rendering exactly one notification, none before the
timer expires; the duration of the timer is exactly the delay when the delay
is at most 2147483647 ms.  When the delay is zero, negative or not a number the
handler makes no host call: no timer, no notification.  For a numeric
scheduledTime the scheduled timestamp is that number (a time value within
8.64e15 ms of the epoch). -/
theorem schedule_arms_timer_iff_positive_delay (dateParse : JsVal → Option Int)
    (now : Int) (fields : List (String × JsVal)) (id title body : JsVal) (n : Int) :
    (∃ trace, scheduleNotification dateParse now (.obj fields) = .ok trace ∧
      match dateGetTime dateParse (getProp (.obj fields) "scheduledTime") with
      | some scheduledTimestamp =>
        if scheduledTimestamp - now > 0 then
          (timers trace).map Prod.fst = [scheduledTimestamp - now] ∧
            (rendered trace).length = 1 ∧ shownNotifications trace = [] ∧
            (scheduledTimestamp - now ≤ 2147483647 →
              timerDurations trace = [scheduledTimestamp - now])
        else trace = []
      | none => trace = []) ∧
    scheduleNotification dateParse now
        (.obj [("id", id), ("title", title), ("body", body), ("scheduledTime", .num n)]) =
      (if n.natAbs ≤ 8640000000000000 ∧ n - now > 0 then
        .ok [.setTimeout
              (.showNotification title (.obj (scheduledDefaults id body (.num n))))
              (n - now),
             .log "Service Worker: Notificación programada para"]
      else .ok []) := by
  constructor
  · cases hTime : dateGetTime dateParse (getProp (.obj fields) "scheduledTime") with
    | none => exact ⟨[], by simp [scheduleNotification, hTime], rfl⟩
    | some scheduledTimestamp =>
      by_cases hDelay : scheduledTimestamp - now > 0
      · refine ⟨_, by simp only [scheduleNotification, hTime]; rw [if_pos hDelay], ?_⟩
        simp only [hDelay, if_true, timers, rendered, shownNotifications, timerDurations,
          List.map_cons, List.map_nil, List.length_cons, List.length_nil, true_and]
        intro hMax
        rw [timerDuration_of_long _ hDelay hMax]
      · refine ⟨[], by simp only [scheduleNotification, hTime]; rw [if_neg hDelay], ?_⟩
        simp [hDelay]
  · have hProps : getProp (.obj [("id", id), ("title", title), ("body", body),
        ("scheduledTime", .num n)]) "scheduledTime" = .num n := by
      simp [getProp, getOwn]
    have hId : getProp (.obj [("id", id), ("title", title), ("body", body),
        ("scheduledTime", .num n)]) "id" = id := by
      simp [getProp, getOwn]
    have hTitle : getProp (.obj [("id", id), ("title", title), ("body", body),
        ("scheduledTime", .num n)]) "title" = title := by
      simp [getProp, getOwn]
    have hBody : getProp (.obj [("id", id), ("title", title), ("body", body),
        ("scheduledTime", .num n)]) "body" = body := by
      simp [getProp, getOwn]
    have hOptions : getProp (.obj [("id", id), ("title", title), ("body", body),
        ("scheduledTime", .num n)]) "options" = .undefined := by
      simp [getProp, getOwn]
    simp only [scheduleNotification, hProps, hId, hTitle, hBody, hOptions, dateGetTime,
      timeClip, scheduledOptions, ownEnumerableProps, List.append_nil]
    by_cases hClip : n.natAbs ≤ 8640000000000000
    · by_cases hDelay : n - now > 0
      · simp [hClip, hDelay]
      · simp [hClip, hDelay]
    · simp [hClip]

/-- Witness for C9: at clock 1000 a request for time 6000 arms one timer, with
delay and duration 5000; requests for time 1000 (now) and for time 500 (past)
make no host call. -/
theorem schedule_arms_timer_iff_positive_delay_witness :
    scheduleNotification (fun _ => none) 1000
        (.obj [("id", .str "habit-1"), ("title", .str "Agua"), ("body", .str "Beber agua"),
          ("scheduledTime", .num 6000)]) =
      .ok [.setTimeout
            (.showNotification (.str "Agua")
              (.obj (scheduledDefaults (.str "habit-1") (.str "Beber agua") (.num 6000))))
            5000,
           .log "Service Worker: Notificación programada para"] ∧
    timerDurations [.setTimeout
        (.showNotification (.str "Agua")
          (.obj (scheduledDefaults (.str "habit-1") (.str "Beber agua") (.num 6000))))
        5000,
      .log "Service Worker: Notificación programada para"] = [5000] ∧
    scheduleNotification (fun _ => none) 1000
        (.obj [("id", .str "habit-1"), ("title", .str "Agua"), ("body", .str "Beber agua"),
          ("scheduledTime", .num 1000)]) = .ok [] ∧
    scheduleNotification (fun _ => none) 1000
        (.obj [("id", .str "habit-1"), ("title", .str "Agua"), ("body", .str "Beber agua"),
          ("scheduledTime", .num 500)]) = .ok [] := by
  have h1 := (schedule_arms_timer_iff_positive_delay (fun _ => none) 1000 []
    (.str "habit-1") (.str "Agua") (.str "Beber agua") 6000).2
  have h2 := (schedule_arms_timer_iff_positive_delay (fun _ => none) 1000 []
    (.str "habit-1") (.str "Agua") (.str "Beber agua") 1000).2
  have h3 := (schedule_arms_timer_iff_positive_delay (fun _ => none) 1000 []
    (.str "habit-1") (.str "Agua") (.str "Beber agua") 500).2
  refine ⟨?_, ?_, ?_, ?_⟩
  · rw [h1]
    norm_num
  · simp only [timerDurations]
    rw [timerDuration_of_long 5000 (by decide) (by decide)]
  · rw [h2]
    norm_num
  · rw [h3]
    norm_num

/-- Claim C9 (as stated) fails: at clock 1000 a request for time 2147484648 has
delay 2147483648 > 0 and arms its timer with that delay, but the host converts
the delay to a 32-bit `long`, so the duration of the timer is 0, not the
delay. -/
theorem schedule_far_ahead_fires_at_once :
    scheduleNotification (fun _ => none) 1000
        (.obj [("id", .str "habit-1"), ("title", .str "Agua"), ("body", .str "Beber agua"),
          ("scheduledTime", .num 2147484648)]) =
      .ok [.setTimeout
            (.showNotification (.str "Agua")
              (.obj (scheduledDefaults (.str "habit-1") (.str "Beber agua")
                (.num 2147484648))))
            2147483648,
           .log "Service Worker: Notificación programada para"] ∧
    timerDurations [.setTimeout
        (.showNotification (.str "Agua")
          (.obj (scheduledDefaults (.str "habit-1") (.str "Beber agua") (.num 2147484648))))
        2147483648,
      .log "Service Worker: Notificación programada para"] = [0] ∧
    (0 : Int) ≠ 2147484648 - 1000 := by
  refine ⟨?_, ?_, by decide⟩
  · simp [scheduleNotification, dateGetTime, timeClip, getProp, getOwn, scheduledOptions,
      ownEnumerableProps]
  · simp only [timerDurations, timerDuration, toLong]
    norm_num

theorem closed_closeOld (dateParse : JsVal → Option Int) (now : Int)
    (notifications : List Notification) :
    closed (cleanOldNotifications dateParse now notifications) =
      notifications.filter (isOld dateParse now) := by
  unfold cleanOldNotifications
  simp only [closed]
  induction notifications with
  | nil => rfl
  | cons n rest ih =>
    by_cases h : isOld dateParse now n = true
    · simp [closeOld, h, closed, ih]
    · simp [closeOld, h, ih]

theorem isOld_iff (dateParse : JsVal → Option Int) (now : Int) (notification : Notification) :
    isOld dateParse now notification = true ↔
      truthy (getProp notification.data "scheduledTime") = true ∧
      ∃ t, dateGetTime dateParse (getProp notification.data "scheduledTime") = some t ∧
        now - t > 86400000 := by
  unfold isOld
  simp only [getProp_jsOr_empty, Bool.and_eq_true]
  cases dateGetTime dateParse (getProp notification.data "scheduledTime") <;> simp

/-- Claim C10 at its failing input: a visible notification whose data carries
the scheduledTime 0 (the epoch) is older than 24 hours at any present clock
reading, yet `cleanOldNotifications` closes nothing, because the guard
`scheduledTime &&` takes the number 0 for an absent value. -/
theorem cleanup_skips_scheduledTime_zero :
    dateGetTime (fun _ => none)
      (getProp (.obj [("id", .str "habit-1"), ("scheduledTime", .num 0)]) "scheduledTime") =
      some 0 ∧
    (1700000000000 : Int) - 0 > 86400000 ∧
    closed (cleanOldNotifications (fun _ => none) 1700000000000
      [⟨"habit-1", .obj [("id", .str "habit-1"), ("scheduledTime", .num 0)]⟩]) = [] := by
  refine ⟨?_, by decide, ?_⟩
  · simp [dateGetTime, getProp, getOwn, timeClip]
  · simp [closed_closeOld, isOld, jsOr, truthy, getProp, getOwn]

end HabitBuddy
